import Mathlib

/-!
Verification of the tus v3 resumable-upload service of `go-http-upload`.

The repository carries two generations of the v3 handler package:
`api/v3/api.go` (the version wired up by `main.go`, whose store interface
is `Find(id) (File, bool, error)`) and `api/v3/core.go` (the earlier
version exercised by `core_test.go`, whose store interface is
`Find(id) (FileMetadata, bool)`).  Both are embedded here: namespace
`Api` mirrors `api.go` / `file.go` / `store.go`, namespace `Core`
mirrors `core.go`.

Modelling conventions:
* Wall-clock instants are natural numbers of seconds; Go's zero
  `time.Time` is `0` (`IsZero` becomes `= 0`, `Before now` becomes
  `< now`).  `uploadExpiresAt`, which in Go renders an RFC1123-GMT
  string, is abstracted to the decimal rendering of the model instant.
* Bytes are naturals; a blob (the file on disk) is a `List Nat`.
* `net/http` response-writer semantics are modelled by `RW`: the first
  `WriteHeader` wins and snapshots the header map as the headers
  actually sent; later `Header().Add`/`Set` calls no longer affect the
  sent headers; `Write` before `WriteHeader` implies a `200`.
* The crypto/encoding library primitives (`md5`/`sha1` hex digests,
  base64 decoding) are opaque function parameters of the handlers; all
  control flow around them is taken from the source.
* Reading the request body (`io.Copy` / `io.ReadAll`) either yields the
  whole body or fails after a partial read, possibly with a network
  timeout; `ReadOutcome` enumerates exactly these outcomes.
* File open/seek on the local filesystem is modelled as infallible (the
  blob is pure state), so the source's open/seek error branches are
  absent; no claim concerns them.
-/

namespace GoHttpUpload

/-- Model of Go's `net/http` ResponseWriter as recorded on the wire:
`headerMap` is the mutable header map, `status`/`sentHeaders` are fixed
by the first `WriteHeader`, `body` accumulates `Write` calls. -/
structure RW where
  headerMap : List (String × String)
  status : Option Nat
  sentHeaders : List (String × String)
  body : String
deriving Repr, DecidableEq

def RW.empty : RW := ⟨[], none, [], ""⟩

/-- Header().Add(k, v): appends to the header map. -/
def RW.addHeader (w : RW) (k v : String) : RW :=
  { w with headerMap := w.headerMap ++ [(k, v)] }

/-- Header().Set(k, v): replaces any existing value for the key. -/
def RW.setHeader (w : RW) (k v : String) : RW :=
  { w with headerMap := (w.headerMap.filter (fun p => p.1 ≠ k)) ++ [(k, v)] }

/-- WriteHeader(code): the first call fixes the status and snapshots the
header map; later calls are superfluous no-ops (as in net/http). -/
def RW.writeHeader (w : RW) (code : Nat) : RW :=
  match w.status with
  | some _ => w
  | none => { w with status := some code, sentHeaders := w.headerMap }

/-- Write(b): an implicit WriteHeader(200) if none happened, then body
bytes are appended. -/
def RW.write (w : RW) (s : String) : RW :=
  let w2 := w.writeHeader 200
  { w2 with body := w2.body ++ s }

/-- JSON rendering of the `cError` struct marshalled by `writeError`. -/
def jsonMessage (msg : String) : String :=
  "\x7b\"message\":\"" ++ msg ++ "\"\x7d"

/-- Model of `writeError` (api.go / core.go): WriteHeader(code), then a
Content-Type set that is too late to be sent, then the JSON body. -/
def writeError (w : RW) (code : Nat) (msg : String) : RW :=
  ((w.writeHeader code).setHeader "Content-Type" "application/json").write (jsonMessage msg)

/-- Splitting a character list at every occurrence of a separator
(structural-recursion counterpart of Go `strings.Split` with a
one-character separator). -/
def splitChar (sep : Char) : List Char → List (List Char)
  | [] => [[]]
  | c :: t =>
    let r := splitChar sep t
    if c = sep then [] :: r
    else
      match r with
      | [] => [[c]]
      | h :: t2 => (c :: h) :: t2

/-- Go `strings.Split(s, sep)` for a one-character separator. -/
def splitOnChar (sep : Char) (s : String) : List String :=
  (splitChar sep s.toList).map List.asString

/-- Decimal digit accumulation over a character list. -/
def digitsVal (cs : List Char) : Nat :=
  cs.foldl (fun a c => a * 10 + (c.toNat - 48)) 0

/-- Model of Go `strconv.ParseUint(s, 10, 64)`: digits only (no sign),
non-empty, value below 2^64. -/
def parseUint (s : String) : Option Nat :=
  let cs := s.toList
  if cs = [] then none
  else if cs.all Char.isDigit then
    let n := digitsVal cs
    if n < 2 ^ 64 then some n else none
  else none

/-- Model of Go `strconv.ParseInt(s, 10, 64)`: optional single leading
sign, then digits, within the signed 64-bit range. -/
def parseInt (s : String) : Option Int :=
  let (neg, digits) :=
    match s.toList with
    | '-' :: t => (true, t)
    | '+' :: t => (false, t)
    | t => (false, t)
  if digits = [] then none
  else if digits.all Char.isDigit then
    let n := digitsVal digits
    if neg then (if n ≤ 2 ^ 63 then some (-(n : Int)) else none)
    else (if n < 2 ^ 63 then some (n : Int) else none)
  else none

/-- tus protocol extensions (api.go / core.go). -/
inductive Extension where
  | creation
  | expiration
  | checksum
  | termination
  | concatenation
deriving Repr, DecidableEq

/-- Extensions.Enabled: membership scan over the configured list. -/
def enabled (e : List Extension) (x : Extension) : Bool := e.contains x

def defaultSupportedExtensions : List Extension :=
  [Extension.creation, Extension.expiration, Extension.checksum]

/-- Parsed `Upload-Checksum` header value. -/
structure Checksum where
  algorithm : String
  value : String
deriving Repr, DecidableEq

/-- Outcome of streaming the request body (`io.Copy` / `io.ReadAll`):
either the whole body, or a failure after writing a partial chunk, the
failure being a network timeout or not, with the error text. -/
inductive ReadOutcome where
  | ok (data : List Nat)
  | err (partialData : List Nat) (timeout : Bool) (msg : String)
deriving Repr, DecidableEq

/-- Request-side inputs of a PATCH `/files/{file_id}`; a header that is
absent reads as `""`, as with Go's `Header.Get`. -/
structure PatchRequest where
  fileID : String
  uploadOffset : String
  contentType : String
  uploadChecksum : String
  body : ReadOutcome
deriving Repr, DecidableEq

end GoHttpUpload

namespace GoHttpUpload.Api

/-- Upload record of `api/v3` (struct `File` in the `NewFile` variant
taking size/metadata/expiry); the expiry instant `0` is Go's zero time. -/
structure File where
  id : String
  name : String
  totalSize : Nat
  uploadedSize : Nat
  contentType : String
  checksum : String
  expiresAt : Nat
  path : String
deriving Repr, DecidableEq

/-- Zero value of the Go `File` struct, returned by a map miss. -/
def File.zero : File := ⟨"", "", 0, 0, "", "", 0, ""⟩

/-- newChecksum (api.go): empty header parses to the empty checksum;
otherwise the value must be exactly `"<alg> <digest>"` with alg one of
md5/sha1. -/
def newChecksum (value : String) : Except String Checksum :=
  if value = "" then Except.ok ⟨"", ""⟩
  else
    match splitOnChar ' ' value with
    | [a, v] =>
      if a ≠ "md5" ∧ a ≠ "sha1" then Except.error "unsupported checksum algorithm"
      else Except.ok ⟨a, v⟩
    | _ => Except.error "invalid checksum format"

/-- Checksum-parsing step of ResumeUpload (api.go lines 264-273): only
performed when the checksum extension is enabled. -/
def checksumStep (exts : List Extension) (h : String) : Except String Checksum :=
  if enabled exts Extension.checksum = true then newChecksum h else Except.ok ⟨"", ""⟩

/-- Result of one PATCH: the response, the `Save` calls performed on the
store (in order), and the new content of the record's blob file. -/
structure PatchResult where
  w : RW
  saves : List (String × File)
  blob : List Nat
deriving Repr, DecidableEq

def uploadExpiresAt (t : Nat) : String := toString t

/-- ResumeUpload (api.go lines 243-422).  `hashFn alg data` is the hex
digest of `data` under `alg` (crypto library, opaque); `find` is the
store's Find; `blob` is the current content of the file at the record's
path; `now` the current instant. -/
def resumeUpload (exts : List Extension) (hashFn : String → List Nat → String)
    (find : String → File × Bool × Option String) (now : Nat) (blob : List Nat)
    (req : PatchRequest) : PatchResult :=
  let w := RW.empty
  match checksumStep exts req.uploadChecksum with
  | Except.error e => ⟨writeError w 400 e, [], blob⟩
  | Except.ok ck =>
  match parseUint req.uploadOffset with
  | none => ⟨writeError w 400 "invalid Upload-Offset header: not a number", [], blob⟩
  | some offset =>
  if req.contentType ≠ "application/offset+octet-stream" then
    ⟨writeError w 415 "invalid Content-Type header: expected application/offset+octet-stream", [], blob⟩
  else
  let fr := find req.fileID
  let fm := fr.1
  if fr.2.1 = false then ⟨writeError w 404 "file not found", [], blob⟩
  else
  match fr.2.2 with
  | some e => ⟨writeError w 500 e, [], blob⟩
  | none =>
  if enabled exts Extension.expiration = true ∧ fm.expiresAt < now then
    ⟨writeError w 410 "file expired", [], blob⟩
  else
  if offset ≠ fm.uploadedSize then
    ⟨writeError w 409 "upload-Offset header does not match the current offset", [], blob⟩
  else
  let originalPos := blob.length
  if enabled exts Extension.checksum = true ∧ ck.algorithm ≠ "" then
    if ck.algorithm ≠ "md5" ∧ ck.algorithm ≠ "sha1" then
      ⟨writeError w 400 "unsupported checksum algorithm", [], blob⟩
    else
      match req.body with
      | ReadOutcome.err pData _ _ =>
        ⟨writeError w 500 "error writing file", [], ((blob ++ pData).take originalPos)⟩
      | ReadOutcome.ok data =>
        let blob2 := blob ++ data
        let calculatedHash := hashFn ck.algorithm data
        if calculatedHash ≠ ck.value then
          ⟨writeError w 460 "checksum mismatch", [], blob2.take originalPos⟩
        else
          let fm2 := { fm with uploadedSize := fm.uploadedSize + data.length }
          let w2 := w.addHeader "Upload-Offset" (toString fm2.uploadedSize)
          let w3 := if fm2.expiresAt ≠ 0 then w2.addHeader "Upload-Expires" (uploadExpiresAt fm2.expiresAt) else w2
          ⟨w3.writeHeader 204, [(fm2.id, fm2)], blob2⟩
  else
    match req.body with
    | ReadOutcome.err pData tmo msg =>
      let fm2 := { fm with uploadedSize := fm.uploadedSize + pData.length }
      if tmo = true then
        ⟨writeError w 408 ("network timeout: " ++ msg), [(fm2.id, fm2)], blob ++ pData⟩
      else
        ⟨writeError w 500 ("error writing the file: " ++ msg), [(fm2.id, fm2)], blob ++ pData⟩
    | ReadOutcome.ok data =>
      let fm2 := { fm with uploadedSize := fm.uploadedSize + data.length }
      let w2 := w.addHeader "Upload-Offset" (toString fm2.uploadedSize)
      let w3 := if fm2.expiresAt ≠ 0 then w2.addHeader "Upload-Expires" (uploadExpiresAt fm2.expiresAt) else w2
      ⟨w3.writeHeader 204, [(fm2.id, fm2)], blob ++ data⟩

/-- GetOffset (api.go lines 188-219). -/
def getOffset (find : String → File × Bool × Option String) (now : Nat)
    (fileID : String) : RW :=
  let w := RW.empty
  let fr := find fileID
  let fm := fr.1
  if fr.2.1 = false then (w.writeHeader 404).write "File not found"
  else
  match fr.2.2 with
  | some e => writeError w 500 e
  | none =>
  let w2 := w.addHeader "Upload-Offset" (toString fm.uploadedSize)
  let w3 := w2.addHeader "Upload-Length" (toString fm.totalSize)
  let w4 := w3.addHeader "Cache-Control" "no-store"
  let w5 := if fm.expiresAt ≠ 0 then w4.addHeader "Upload-Expires" (uploadExpiresAt fm.expiresAt) else w4
  if fm.expiresAt ≠ 0 ∧ fm.expiresAt < now then writeError w5 410 "file expired"
  else w5.writeHeader 204

/-- Splitting a character list at every character satisfying a
predicate. -/
def splitPred (p : Char → Bool) : List Char → List (List Char)
  | [] => [[]]
  | c :: t =>
    let r := splitPred p t
    if p c then [] :: r
    else
      match r with
      | [] => [[c]]
      | h :: t2 => (c :: h) :: t2

/-- strings.Fields: split around runs of whitespace, dropping empties. -/
def fields (s : String) : List String :=
  ((splitPred Char.isWhitespace s.toList).map List.asString).filter (fun x => x ≠ "")

/-- parseMetadata (the `File` variant used by api.go's NewFile): split
the header on commas, each non-empty item is `<key> <base64 value>`,
build the key map (later duplicates win, as for a Go map), then require
the keys content-type, checksum and filename.  `b64` is the standard
base64 decoder (encoding library, opaque); `none` is any error. -/
def parseMetadataFields (b64 : String → Option String) (m : String) :
    Option (String × String × String) :=
  let step := fun (acc : Option (List (String × String))) (kv : String) =>
    match acc with
    | none => none
    | some md =>
      if kv = "" then some md
      else
        match fields kv with
        | [k, v] =>
          match b64 v with
          | some decoded => some ((k, decoded) :: md)
          | none => none
        | _ => none
  match (splitOnChar ',' m).foldl step (some []) with
  | none => none
  | some md =>
    match md.lookup "content-type" with
    | none => none
    | some ct =>
      match md.lookup "checksum" with
      | none => none
      | some ck =>
        match md.lookup "filename" with
        | none => none
        | some n => some (n, ct, ck)

/-- NewFile (the size/metadata/expiresAt variant used by api.go's
CreateUpload).  `id1` and `id2` stand for the two fresh UUIDs drawn for
the record id and the blob path; the metadata parse error is discarded,
only a fully successful parse sets name/contentType/checksum. -/
def NewFile (b64 : String → Option String) (size : Nat) (metadata : String)
    (expiresAt : Nat) (id1 id2 : String) : File :=
  let f : File :=
    { id := id1, name := "", totalSize := size, uploadedSize := 0,
      contentType := "", checksum := "", expiresAt := expiresAt,
      path := "/tmp/file-upload-" ++ id2 }
  match parseMetadataFields b64 metadata with
  | some (n, ct, ck) => { f with name := n, contentType := ct, checksum := ck }
  | none => f

/-- UploadMaxDuration = 10 minutes, in seconds of model time. -/
def uploadMaxDuration : Nat := 600

/-- Request-side inputs of a POST `/files`. -/
structure PostRequest where
  uploadDeferLength : String
  uploadLength : String
  uploadMetadata : String
deriving Repr, DecidableEq

/-- CreateUpload (api.go lines 424-474).  The controller's extension
list is a parameter because it is a field of the receiver, but the
handler never consults it.  Returns the response and the `Save` calls
performed.  Note: the size-cap branch writes a 413 but does not return,
exactly as in the source. -/
def createUpload (exts : List Extension) (maxSize : Nat)
    (b64 : String → Option String) (now : Nat) (id1 id2 : String)
    (req : PostRequest) : RW × List (String × File) :=
  let _ := exts
  let w := RW.empty
  if req.uploadDeferLength ≠ "" ∧ req.uploadDeferLength ≠ "1" then
    ((w.writeHeader 400).write "Invalid Upload-Defer-Length header", [])
  else if req.uploadDeferLength = "1" then
    ((w.writeHeader 501).write "Upload-Defer-Length is not implemented", [])
  else
  match parseUint req.uploadLength with
  | none => ((w.writeHeader 400).write "Invalid Upload-Length header", [])
  | some totalSize =>
    let w2 := if maxSize > 0 ∧ totalSize > maxSize then
        (w.writeHeader 413).write "Upload-Length exceeds the maximum size"
      else w
    let fm := NewFile b64 totalSize req.uploadMetadata (now + uploadMaxDuration) id1 id2
    let w3 := w2.addHeader "Location" ("/files/" ++ fm.id)
    let w4 := if fm.expiresAt ≠ 0 then w3.addHeader "Upload-Expires" (uploadExpiresAt fm.expiresAt) else w3
    ((w4.writeHeader 201).write "CreateUpload", [(fm.id, fm)])

/-- State of the in-memory Store (store.go): the `files` map, as an
association list (first occurrence of a key wins, as a map). -/
def StoreState := List (String × File)

/-- Find (store.go lines 16-21): map lookup under RLock; a miss yields
the zero File and `exists = false`; the error result is always nil. -/
def storeFind (s : StoreState) (id : String) : File × Bool × Option String :=
  match List.lookup id s with
  | some f => (f, true, none)
  | none => (File.zero, false, none)

end GoHttpUpload.Api

namespace GoHttpUpload.Core

/-- Upload record of the earlier v3 generation (`FileMetadata`), whose
uploaded size is a signed int64. -/
structure FileMetadata where
  id : String
  totalSize : Nat
  uploadedSize : Int
  metadata : String
  expiresAt : Nat
deriving Repr, DecidableEq

/-- newChecksum (core.go lines 218-233): as in api.go but only md5 is
supported. -/
def newChecksum (value : String) : Except String Checksum :=
  if value = "" then Except.ok ⟨"", ""⟩
  else
    match splitOnChar ' ' value with
    | [a, v] =>
      if a ≠ "md5" then Except.error "unsupported checksum algorithm"
      else Except.ok ⟨a, v⟩
    | _ => Except.error "invalid checksum format"

/-- Result of one PATCH against the core.go handler. -/
structure CorePatchResult where
  w : RW
  saves : List (String × FileMetadata)
  blob : List Nat
deriving Repr, DecidableEq

/-- ResumeUpload (core.go lines 256-381).  The body is read whole by
`io.ReadAll` before any verification; `md5Hex` is the md5 hex digest
(opaque).  The file is opened without O_APPEND and written after a
seek to `offset`, zero-filling any gap as a sparse file would. -/
def coreResumeUpload (exts : List Extension) (md5Hex : List Nat → String)
    (find : String → FileMetadata × Bool) (now : Nat) (blob : List Nat)
    (req : PatchRequest) : CorePatchResult :=
  let w := RW.empty
  match (if enabled exts Extension.checksum = true then newChecksum req.uploadChecksum else Except.ok ⟨"", ""⟩) with
  | Except.error e => ⟨(w.writeHeader 400).write e, [], blob⟩
  | Except.ok ck =>
  match parseInt req.uploadOffset with
  | none => ⟨writeError w 400 "invalid Upload-Offset header: not a number", [], blob⟩
  | some offset =>
  if offset < 0 then
    ⟨writeError w 400 "invalid Upload-Offset header: negative value", [], blob⟩
  else
  if req.contentType ≠ "application/offset+octet-stream" then
    ⟨writeError w 415 "invalid Content-Type header: expected application/offset+octet-stream", [], blob⟩
  else
  let fr := find req.fileID
  let fm := fr.1
  if fr.2 = false then ⟨writeError w 404 "file not found", [], blob⟩
  else
  if enabled exts Extension.expiration = true ∧ fm.expiresAt < now then
    ⟨(w.writeHeader 410).write "File expired", [], blob⟩
  else
  if offset ≠ fm.uploadedSize then
    ⟨writeError w 409 "upload-Offset header does not match the current offset", [], blob⟩
  else
  match req.body with
  | ReadOutcome.err _ _ _ =>
    ⟨writeError w 500 "error copying the request body", [], blob⟩
  | ReadOutcome.ok data =>
    if enabled exts Extension.checksum = true ∧ ck.algorithm ≠ "" ∧ md5Hex data ≠ ck.value then
      ⟨(w.writeHeader 400).write "Checksum mismatch", [], blob⟩
    else
      let pre := blob.take offset.toNat
      let blob2 := pre ++ List.replicate (offset.toNat - pre.length) 0 ++ data
      let fm2 := { fm with uploadedSize := fm.uploadedSize + (data.length : Int) }
      let w2 := w.addHeader "Upload-Offset" (toString fm2.uploadedSize)
      let w3 := if fm2.expiresAt ≠ 0 then w2.addHeader "Upload-Expires" (Api.uploadExpiresAt fm2.expiresAt) else w2
      ⟨w3.writeHeader 204, [(fm2.id, fm2)], blob2⟩

end GoHttpUpload.Core

namespace GoHttpUpload

/-- A checksum successfully parsed by api.go's newChecksum either is the
empty checksum or names one of the two supported algorithms. -/
lemma Api.newChecksum_algorithm (v : String) (ck : Checksum)
    (h : Api.newChecksum v = Except.ok ck) :
    ck.algorithm = "" ∨ ck.algorithm = "md5" ∨ ck.algorithm = "sha1" := by
  unfold Api.newChecksum at h
  by_cases hv : v = ""
  · simp [hv] at h
    simp [← h]
  · simp only [hv, if_neg, ite_false] at h
    match hs : splitOnChar ' ' v with
    | [a, b] =>
      rw [hs] at h
      by_cases ha : a ≠ "md5" ∧ a ≠ "sha1"
      · simp [ha] at h
      · simp only [ha, ite_false] at h
        cases h
        rcases not_and_or.mp ha with h1 | h2
        · right; left; exact not_not.mp h1
        · right; right; exact not_not.mp h2
    | [] => rw [hs] at h; simp at h
    | [a] => rw [hs] at h; simp at h
    | a :: b :: c :: t => rw [hs] at h; simp at h

/-- The same for the checksum step of the handler (which skips parsing
when the extension is disabled). -/
lemma Api.checksumStep_algorithm (exts : List Extension) (v : String) (ck : Checksum)
    (h : Api.checksumStep exts v = Except.ok ck) :
    ck.algorithm = "" ∨ ck.algorithm = "md5" ∨ ck.algorithm = "sha1" := by
  unfold Api.checksumStep at h
  by_cases he : enabled exts Extension.checksum = true
  · rw [if_pos he] at h
    exact Api.newChecksum_algorithm v ck h
  · rw [if_neg he] at h
    cases h
    left; rfl

/-- C1: a PATCH that passes every precondition (parsed Upload-Offset
equal to the record's uploaded size, correct Content-Type, record found
and not expired) and whose body is fully read as `data`, with no active
checksum or a matching digest, saves the record with its uploaded size
increased by `data.length`, appends `data` to the blob, and responds
204 with `Upload-Offset` set to the new size and `Upload-Expires` when
the record's expiry is set. -/
theorem c1_patch_commit_success
    (exts : List Extension) (hashFn : String → List Nat → String)
    (find : String → Api.File × Bool × Option String) (now : Nat) (blob : List Nat)
    (req : PatchRequest) (fm : Api.File) (ck : Checksum) (data : List Nat)
    (hck : Api.checksumStep exts req.uploadChecksum = Except.ok ck)
    (hoff : parseUint req.uploadOffset = some fm.uploadedSize)
    (hct : req.contentType = "application/offset+octet-stream")
    (hfind : find req.fileID = (fm, true, none))
    (hexp : ¬(enabled exts Extension.expiration = true ∧ fm.expiresAt < now))
    (hbody : req.body = ReadOutcome.ok data)
    (hhash : ck.algorithm = "" ∨ hashFn ck.algorithm data = ck.value) :
    (Api.resumeUpload exts hashFn find now blob req).saves =
      [(fm.id, { fm with uploadedSize := fm.uploadedSize + data.length })] ∧
    (Api.resumeUpload exts hashFn find now blob req).w.status = some 204 ∧
    ("Upload-Offset", toString (fm.uploadedSize + data.length)) ∈
      (Api.resumeUpload exts hashFn find now blob req).w.sentHeaders ∧
    (fm.expiresAt ≠ 0 → ("Upload-Expires", Api.uploadExpiresAt fm.expiresAt) ∈
      (Api.resumeUpload exts hashFn find now blob req).w.sentHeaders) ∧
    (Api.resumeUpload exts hashFn find now blob req).blob = blob ++ data := by
  have halg := Api.checksumStep_algorithm exts req.uploadChecksum ck hck
  unfold Api.resumeUpload
  rw [hck, hoff, hct, hfind, hbody]
  simp only [ne_eq, not_true_eq_false, if_false, ite_false, if_neg hexp]
  by_cases hact : enabled exts Extension.checksum = true ∧ ck.algorithm ≠ ""
  · have hm : hashFn ck.algorithm data = ck.value := by
      rcases hhash with h | h
      · exact absurd h hact.2
      · exact h
    have hsup : ¬(ck.algorithm ≠ "md5" ∧ ck.algorithm ≠ "sha1") := by
      rcases halg with h | h | h
      · exact absurd h hact.2
      · intro hc; exact hc.1 h
      · intro hc; exact hc.2 h
    simp only [if_pos hact, if_neg hsup, hm, not_true_eq_false, if_false, ite_false]
    by_cases hz : fm.expiresAt = 0 <;>
      simp [RW.writeHeader, RW.addHeader, RW.empty, hz]
  · simp only [if_neg hact]
    by_cases hz : fm.expiresAt = 0 <;>
      simp [RW.writeHeader, RW.addHeader, RW.empty, hz]

/-- Witness for C1 at a concrete fresh record and the body "ccc". -/
theorem c1_patch_commit_success_witness :
    (Api.resumeUpload [] (fun _ _ => "")
        (fun _ => (⟨"a", "", 10, 0, "", "", 0, "/tmp/a"⟩, true, none)) 0 []
        ⟨"a", "0", "application/offset+octet-stream", "", ReadOutcome.ok [99, 99, 99]⟩).saves =
      [("a", ⟨"a", "", 10, 3, "", "", 0, "/tmp/a"⟩)] ∧
    (Api.resumeUpload [] (fun _ _ => "")
        (fun _ => (⟨"a", "", 10, 0, "", "", 0, "/tmp/a"⟩, true, none)) 0 []
        ⟨"a", "0", "application/offset+octet-stream", "", ReadOutcome.ok [99, 99, 99]⟩).w.status = some 204 ∧
    ("Upload-Offset", "3") ∈
      (Api.resumeUpload [] (fun _ _ => "")
        (fun _ => (⟨"a", "", 10, 0, "", "", 0, "/tmp/a"⟩, true, none)) 0 []
        ⟨"a", "0", "application/offset+octet-stream", "", ReadOutcome.ok [99, 99, 99]⟩).w.sentHeaders := by
  have h := c1_patch_commit_success [] (fun _ _ => "")
    (fun _ => (⟨"a", "", 10, 0, "", "", 0, "/tmp/a"⟩, true, none)) 0 []
    ⟨"a", "0", "application/offset+octet-stream", "", ReadOutcome.ok [99, 99, 99]⟩
    ⟨"a", "", 10, 0, "", "", 0, "/tmp/a"⟩ ⟨"", ""⟩ [99, 99, 99]
    rfl (by decide) rfl rfl (by decide) rfl (Or.inl rfl)
  exact ⟨h.1, h.2.1, h.2.2.1⟩

/-- C2: a PATCH that reaches the offset comparison (record found, not
expired, headers valid) with a claimed offset different from the
record's uploaded size gets a 409 with the exact conflict body, no Save
is performed and the blob is untouched. -/
theorem c2_patch_offset_conflict
    (exts : List Extension) (hashFn : String → List Nat → String)
    (find : String → Api.File × Bool × Option String) (now : Nat) (blob : List Nat)
    (req : PatchRequest) (fm : Api.File) (ck : Checksum) (offset : Nat)
    (hck : Api.checksumStep exts req.uploadChecksum = Except.ok ck)
    (hoff : parseUint req.uploadOffset = some offset)
    (hct : req.contentType = "application/offset+octet-stream")
    (hfind : find req.fileID = (fm, true, none))
    (hexp : ¬(enabled exts Extension.expiration = true ∧ fm.expiresAt < now))
    (hneq : offset ≠ fm.uploadedSize) :
    (Api.resumeUpload exts hashFn find now blob req).w.status = some 409 ∧
    (Api.resumeUpload exts hashFn find now blob req).w.body =
      jsonMessage "upload-Offset header does not match the current offset" ∧
    (Api.resumeUpload exts hashFn find now blob req).saves = [] ∧
    (Api.resumeUpload exts hashFn find now blob req).blob = blob := by
  unfold Api.resumeUpload
  rw [hck, hoff, hct, hfind]
  simp only [ne_eq, not_true_eq_false, if_false, ite_false, if_neg hexp, if_pos hneq]
  simp [writeError, RW.writeHeader, RW.setHeader, RW.write, RW.empty]

/-- Witness for C2: claimed offset 10 against a record at offset 0. -/
theorem c2_patch_offset_conflict_witness :
    (Api.resumeUpload [] (fun _ _ => "")
        (fun _ => (⟨"a", "", 10, 0, "", "", 0, "/tmp/a"⟩, true, none)) 0 []
        ⟨"a", "10", "application/offset+octet-stream", "", ReadOutcome.ok []⟩).w.status = some 409 ∧
    (Api.resumeUpload [] (fun _ _ => "")
        (fun _ => (⟨"a", "", 10, 0, "", "", 0, "/tmp/a"⟩, true, none)) 0 []
        ⟨"a", "10", "application/offset+octet-stream", "", ReadOutcome.ok []⟩).w.body =
      jsonMessage "upload-Offset header does not match the current offset" ∧
    (Api.resumeUpload [] (fun _ _ => "")
        (fun _ => (⟨"a", "", 10, 0, "", "", 0, "/tmp/a"⟩, true, none)) 0 []
        ⟨"a", "10", "application/offset+octet-stream", "", ReadOutcome.ok []⟩).saves = [] :=
  have h := c2_patch_offset_conflict [] (fun _ _ => "")
    (fun _ => (⟨"a", "", 10, 0, "", "", 0, "/tmp/a"⟩, true, none)) 0 []
    ⟨"a", "10", "application/offset+octet-stream", "", ReadOutcome.ok []⟩
    ⟨"a", "", 10, 0, "", "", 0, "/tmp/a"⟩ ⟨"", ""⟩ 10
    rfl (by decide) rfl rfl (by decide) (by decide)
  ⟨h.1, h.2.1, h.2.2.1⟩

/-- C3: a PATCH with an active, well-formed Upload-Checksum whose body
is fully read but whose computed digest differs from the expected one
responds 460 with the checksum-mismatch body, truncates the blob back
to its pre-PATCH content, and performs no Save. -/
theorem c3_patch_checksum_mismatch
    (exts : List Extension) (hashFn : String → List Nat → String)
    (find : String → Api.File × Bool × Option String) (now : Nat) (blob : List Nat)
    (req : PatchRequest) (fm : Api.File) (ck : Checksum) (data : List Nat)
    (hck : Api.checksumStep exts req.uploadChecksum = Except.ok ck)
    (henabled : enabled exts Extension.checksum = true)
    (halgne : ck.algorithm ≠ "")
    (hoff : parseUint req.uploadOffset = some fm.uploadedSize)
    (hct : req.contentType = "application/offset+octet-stream")
    (hfind : find req.fileID = (fm, true, none))
    (hexp : ¬(enabled exts Extension.expiration = true ∧ fm.expiresAt < now))
    (hbody : req.body = ReadOutcome.ok data)
    (hmism : hashFn ck.algorithm data ≠ ck.value) :
    (Api.resumeUpload exts hashFn find now blob req).w.status = some 460 ∧
    (Api.resumeUpload exts hashFn find now blob req).w.body = jsonMessage "checksum mismatch" ∧
    (Api.resumeUpload exts hashFn find now blob req).saves = [] ∧
    (Api.resumeUpload exts hashFn find now blob req).blob = blob := by
  have halg := Api.checksumStep_algorithm exts req.uploadChecksum ck hck
  have hsup : ¬(ck.algorithm ≠ "md5" ∧ ck.algorithm ≠ "sha1") := by
    rcases halg with h | h | h
    · exact absurd h halgne
    · intro hc; exact hc.1 h
    · intro hc; exact hc.2 h
  unfold Api.resumeUpload
  rw [hck, hoff, hct, hfind, hbody]
  simp only [ne_eq, not_true_eq_false, if_false, ite_false, if_neg hexp,
    if_pos (And.intro henabled halgne), if_neg hsup, if_pos hmism]
  refine ⟨rfl, rfl, rfl, ?_⟩
  simp

/-- Witness for C3: md5 digest claimed `"00"`, computed digest `"x"`. -/
theorem c3_patch_checksum_mismatch_witness :
    (Api.resumeUpload defaultSupportedExtensions (fun _ _ => "x")
        (fun _ => (⟨"a", "", 10, 0, "", "", 0, "/tmp/a"⟩, true, none)) 0 [5]
        ⟨"a", "0", "application/offset+octet-stream", "md5 00", ReadOutcome.ok [9]⟩).w.status = some 460 ∧
    (Api.resumeUpload defaultSupportedExtensions (fun _ _ => "x")
        (fun _ => (⟨"a", "", 10, 0, "", "", 0, "/tmp/a"⟩, true, none)) 0 [5]
        ⟨"a", "0", "application/offset+octet-stream", "md5 00", ReadOutcome.ok [9]⟩).saves = [] ∧
    (Api.resumeUpload defaultSupportedExtensions (fun _ _ => "x")
        (fun _ => (⟨"a", "", 10, 0, "", "", 0, "/tmp/a"⟩, true, none)) 0 [5]
        ⟨"a", "0", "application/offset+octet-stream", "md5 00", ReadOutcome.ok [9]⟩).blob = [5] :=
  have h := c3_patch_checksum_mismatch defaultSupportedExtensions (fun _ _ => "x")
    (fun _ => (⟨"a", "", 10, 0, "", "", 0, "/tmp/a"⟩, true, none)) 0 [5]
    ⟨"a", "0", "application/offset+octet-stream", "md5 00", ReadOutcome.ok [9]⟩
    ⟨"a", "", 10, 0, "", "", 0, "/tmp/a"⟩ ⟨"md5", "00"⟩ [9]
    rfl (by decide) (by decide) (by decide) rfl rfl (by decide) rfl (by decide)
  ⟨h.1, h.2.2.1, h.2.2.2⟩

/-- C4 counterexample: with an active checksum (`Upload-Checksum: md5
deadbeef`), a mid-stream timeout error after one durably written byte
produces a 500 with NO Save and a rolled-back blob — not the claimed
partial-byte commit and 408. -/
theorem c4_midstream_checksum_counterexample :
    (Api.resumeUpload defaultSupportedExtensions (fun _ _ => "x")
        (fun _ => (⟨"a", "", 10, 0, "", "", 0, "/tmp/a"⟩, true, none)) 0 []
        ⟨"a", "0", "application/offset+octet-stream", "md5 deadbeef",
          ReadOutcome.err [7] true "i/o timeout"⟩).saves = [] ∧
    (Api.resumeUpload defaultSupportedExtensions (fun _ _ => "x")
        (fun _ => (⟨"a", "", 10, 0, "", "", 0, "/tmp/a"⟩, true, none)) 0 []
        ⟨"a", "0", "application/offset+octet-stream", "md5 deadbeef",
          ReadOutcome.err [7] true "i/o timeout"⟩).w.status = some 500 ∧
    (Api.resumeUpload defaultSupportedExtensions (fun _ _ => "x")
        (fun _ => (⟨"a", "", 10, 0, "", "", 0, "/tmp/a"⟩, true, none)) 0 []
        ⟨"a", "0", "application/offset+octet-stream", "md5 deadbeef",
          ReadOutcome.err [7] true "i/o timeout"⟩).blob = [] :=
  ⟨rfl, rfl, rfl⟩

/-- C4 amended: a mid-stream copy error commits the partial byte count
and answers 408 (timeout) / 500 (otherwise) only when no checksum is
active; when a checksum is active the handler instead rolls the blob
back, performs no Save, and answers 500 regardless of timeout. -/
theorem c4_midstream_error_amended
    (exts : List Extension) (hashFn : String → List Nat → String)
    (find : String → Api.File × Bool × Option String) (now : Nat) (blob : List Nat)
    (req : PatchRequest) (fm : Api.File) (ck : Checksum)
    (pData : List Nat) (tmo : Bool) (msg : String)
    (hck : Api.checksumStep exts req.uploadChecksum = Except.ok ck)
    (hoff : parseUint req.uploadOffset = some fm.uploadedSize)
    (hct : req.contentType = "application/offset+octet-stream")
    (hfind : find req.fileID = (fm, true, none))
    (hexp : ¬(enabled exts Extension.expiration = true ∧ fm.expiresAt < now))
    (hbody : req.body = ReadOutcome.err pData tmo msg) :
    (¬(enabled exts Extension.checksum = true ∧ ck.algorithm ≠ "") →
      (Api.resumeUpload exts hashFn find now blob req).saves =
        [(fm.id, { fm with uploadedSize := fm.uploadedSize + pData.length })] ∧
      (Api.resumeUpload exts hashFn find now blob req).w.status =
        some (if tmo then 408 else 500) ∧
      (Api.resumeUpload exts hashFn find now blob req).blob = blob ++ pData ∧
      (Api.resumeUpload exts hashFn find now blob req).w.sentHeaders = []) ∧
    (enabled exts Extension.checksum = true ∧ ck.algorithm ≠ "" →
      (Api.resumeUpload exts hashFn find now blob req).saves = [] ∧
      (Api.resumeUpload exts hashFn find now blob req).w.status = some 500 ∧
      (Api.resumeUpload exts hashFn find now blob req).blob = blob) := by
  have halg := Api.checksumStep_algorithm exts req.uploadChecksum ck hck
  unfold Api.resumeUpload
  rw [hck, hoff, hct, hfind, hbody]
  simp only [ne_eq, not_true_eq_false, if_false, ite_false, if_neg hexp]
  constructor
  · intro hact
    simp only [if_neg hact]
    cases tmo <;>
      simp [writeError, RW.writeHeader, RW.setHeader, RW.write, RW.empty]
  · intro hact
    have hsup : ¬(ck.algorithm ≠ "md5" ∧ ck.algorithm ≠ "sha1") := by
      rcases halg with h | h | h
      · exact absurd h hact.2
      · intro hc; exact hc.1 h
      · intro hc; exact hc.2 h
    simp only [if_pos hact, if_neg hsup]
    refine ⟨rfl, rfl, ?_⟩
    simp

/-- Witness for the amended C4: no checksum, timeout after one byte →
408 with the record saved at offset 1. -/
theorem c4_midstream_error_amended_witness :
    (Api.resumeUpload [] (fun _ _ => "")
        (fun _ => (⟨"a", "", 10, 0, "", "", 0, "/tmp/a"⟩, true, none)) 0 []
        ⟨"a", "0", "application/offset+octet-stream", "",
          ReadOutcome.err [7] true "i/o timeout"⟩).saves =
      [("a", ⟨"a", "", 10, 1, "", "", 0, "/tmp/a"⟩)] ∧
    (Api.resumeUpload [] (fun _ _ => "")
        (fun _ => (⟨"a", "", 10, 0, "", "", 0, "/tmp/a"⟩, true, none)) 0 []
        ⟨"a", "0", "application/offset+octet-stream", "",
          ReadOutcome.err [7] true "i/o timeout"⟩).w.status = some 408 ∧
    (Api.resumeUpload [] (fun _ _ => "")
        (fun _ => (⟨"a", "", 10, 0, "", "", 0, "/tmp/a"⟩, true, none)) 0 []
        ⟨"a", "0", "application/offset+octet-stream", "",
          ReadOutcome.err [7] true "i/o timeout"⟩).w.sentHeaders = [] :=
  have h := (c4_midstream_error_amended [] (fun _ _ => "")
    (fun _ => (⟨"a", "", 10, 0, "", "", 0, "/tmp/a"⟩, true, none)) 0 []
    ⟨"a", "0", "application/offset+octet-stream", "",
      ReadOutcome.err [7] true "i/o timeout"⟩
    ⟨"a", "", 10, 0, "", "", 0, "/tmp/a"⟩ ⟨"", ""⟩ [7] true "i/o timeout"
    rfl (by decide) rfl rfl (by decide) rfl).1 (by decide)
  ⟨h.1, h.2.1, h.2.2.2⟩

/-- C5: the size-cap branch of CreateUpload writes the 413 but then
falls through (missing return): the record IS built and saved, the 413
status and both bodies go out, and the Location header added after
WriteHeader is never sent.  This contradicts the claimed abort. -/
theorem c5_post_maxsize_fallthrough :
    (Api.createUpload [] 10 (fun _ => none) 1000 "id-1" "id-2" ⟨"", "100", ""⟩).1.status = some 413 ∧
    (Api.createUpload [] 10 (fun _ => none) 1000 "id-1" "id-2" ⟨"", "100", ""⟩).2 =
      [("id-1", ⟨"id-1", "", 100, 0, "", "", 1600, "/tmp/file-upload-id-2"⟩)] ∧
    (Api.createUpload [] 10 (fun _ => none) 1000 "id-1" "id-2" ⟨"", "100", ""⟩).1.sentHeaders = [] ∧
    (Api.createUpload [] 10 (fun _ => none) 1000 "id-1" "id-2" ⟨"", "100", ""⟩).1.body =
      "Upload-Length exceeds the maximum sizeCreateUpload" :=
  ⟨rfl, rfl, rfl, rfl⟩

/-- C6: the api.go handler parses Upload-Offset with ParseUint, so a
negative header value `-1` fails the parse and is answered with the
not-a-number body, contradicting the claimed (and tested, and
core.go-implemented) negative-value body; the core.go handler does
answer `-1` with the negative-value body and a missing header with the
not-a-number body. -/
theorem c6_negative_offset_divergence :
    (Api.resumeUpload [] (fun _ _ => "") (fun _ => (Api.File.zero, false, none)) 0 []
        ⟨"a", "-1", "application/offset+octet-stream", "", ReadOutcome.ok []⟩).w.status = some 400 ∧
    (Api.resumeUpload [] (fun _ _ => "") (fun _ => (Api.File.zero, false, none)) 0 []
        ⟨"a", "-1", "application/offset+octet-stream", "", ReadOutcome.ok []⟩).w.body =
      jsonMessage "invalid Upload-Offset header: not a number" ∧
    (Core.coreResumeUpload [] (fun _ => "") (fun _ => (⟨"a", 10, 0, "", 0⟩, false)) 0 []
        ⟨"a", "-1", "application/offset+octet-stream", "", ReadOutcome.ok []⟩).w.status = some 400 ∧
    (Core.coreResumeUpload [] (fun _ => "") (fun _ => (⟨"a", 10, 0, "", 0⟩, false)) 0 []
        ⟨"a", "-1", "application/offset+octet-stream", "", ReadOutcome.ok []⟩).w.body =
      jsonMessage "invalid Upload-Offset header: negative value" ∧
    (Core.coreResumeUpload [] (fun _ => "") (fun _ => (⟨"a", 10, 0, "", 0⟩, false)) 0 []
        ⟨"a", "", "application/offset+octet-stream", "", ReadOutcome.ok []⟩).w.body =
      jsonMessage "invalid Upload-Offset header: not a number" :=
  ⟨rfl, rfl, rfl, rfl, rfl⟩

/-- C7: a HEAD on an absent record answers 404 with no headers sent; on
a present record the response carries Upload-Offset, Upload-Length and
Cache-Control: no-store, and is 410 with Upload-Expires when the expiry
is set and past, 204 otherwise. -/
theorem c7_head_offset
    (find : String → Api.File × Bool × Option String) (now : Nat) (fileID : String)
    (fm : Api.File) (ok : Bool) (ferr : Option String)
    (h : find fileID = (fm, ok, ferr)) :
    (ok = false →
      (Api.getOffset find now fileID).status = some 404 ∧
      (Api.getOffset find now fileID).sentHeaders = [] ∧
      (Api.getOffset find now fileID).body = "File not found") ∧
    (ok = true → ferr = none →
      ("Upload-Offset", toString fm.uploadedSize) ∈ (Api.getOffset find now fileID).sentHeaders ∧
      ("Upload-Length", toString fm.totalSize) ∈ (Api.getOffset find now fileID).sentHeaders ∧
      ("Cache-Control", "no-store") ∈ (Api.getOffset find now fileID).sentHeaders ∧
      (fm.expiresAt ≠ 0 ∧ fm.expiresAt < now →
        (Api.getOffset find now fileID).status = some 410 ∧
        ("Upload-Expires", Api.uploadExpiresAt fm.expiresAt) ∈ (Api.getOffset find now fileID).sentHeaders) ∧
      (¬(fm.expiresAt ≠ 0 ∧ fm.expiresAt < now) →
        (Api.getOffset find now fileID).status = some 204)) := by
  unfold Api.getOffset
  rw [h]
  constructor
  · intro hok
    subst hok
    simp [RW.write, RW.writeHeader, RW.empty]
  · intro hok hferr
    subst hok
    subst hferr
    simp only []
    by_cases hz : fm.expiresAt ≠ 0 ∧ fm.expiresAt < now
    · simp [if_pos hz, hz.1, hz.2, writeError, RW.write, RW.writeHeader, RW.setHeader,
        RW.addHeader, RW.empty]
    · by_cases hz0 : fm.expiresAt = 0
      · simp [if_neg hz, hz0, writeError, RW.write, RW.writeHeader, RW.setHeader,
          RW.addHeader, RW.empty]
      · have hlt : ¬(fm.expiresAt < now) := fun hlt => hz ⟨hz0, hlt⟩
        simp [if_neg hz, hz0, hlt, writeError, RW.write, RW.writeHeader, RW.setHeader,
          RW.addHeader, RW.empty]

/-- Witness for C7: an expired record (expiry 5, now 9) and an absent
record. -/
theorem c7_head_offset_witness :
    (Api.getOffset (fun _ => (⟨"a", "", 10, 3, "", "", 5, "/tmp/a"⟩, true, none)) 9 "a").status = some 410 ∧
    ("Upload-Offset", "3") ∈
      (Api.getOffset (fun _ => (⟨"a", "", 10, 3, "", "", 5, "/tmp/a"⟩, true, none)) 9 "a").sentHeaders ∧
    ("Upload-Expires", "5") ∈
      (Api.getOffset (fun _ => (⟨"a", "", 10, 3, "", "", 5, "/tmp/a"⟩, true, none)) 9 "a").sentHeaders ∧
    (Api.getOffset (fun _ => (Api.File.zero, false, none)) 9 "b").status = some 404 ∧
    (Api.getOffset (fun _ => (Api.File.zero, false, none)) 9 "b").sentHeaders = [] :=
  have h1 := (c7_head_offset (fun _ => (⟨"a", "", 10, 3, "", "", 5, "/tmp/a"⟩, true, none))
    9 "a" ⟨"a", "", 10, 3, "", "", 5, "/tmp/a"⟩ true none rfl).2 rfl rfl
  have h2 := (c7_head_offset (fun _ => (Api.File.zero, false, none))
    9 "b" Api.File.zero false none rfl).1 rfl
  have h3 := h1.2.2.2.1 (by decide)
  ⟨h3.1, h1.1, h3.2, h2.1, h2.2.1⟩

/-- C8 counterexample: with the default extensions, a PATCH whose
Upload-Offset is unparseable and whose Upload-Checksum is malformed is
answered with the checksum parse error body, not the claimed
Upload-Offset error body. -/
theorem c8_checksum_parsed_first_counterexample :
    (Api.resumeUpload defaultSupportedExtensions (fun _ _ => "")
        (fun _ => (Api.File.zero, false, none)) 0 []
        ⟨"a", "abc", "x", "zzz", ReadOutcome.ok []⟩).w.status = some 400 ∧
    (Api.resumeUpload defaultSupportedExtensions (fun _ _ => "")
        (fun _ => (Api.File.zero, false, none)) 0 []
        ⟨"a", "abc", "x", "zzz", ReadOutcome.ok []⟩).w.body =
      jsonMessage "invalid checksum format" ∧
    (Api.resumeUpload defaultSupportedExtensions (fun _ _ => "")
        (fun _ => (Api.File.zero, false, none)) 0 []
        ⟨"a", "abc", "x", "zzz", ReadOutcome.ok []⟩).w.body ≠
      jsonMessage "invalid Upload-Offset header: not a number" :=
  ⟨rfl, rfl, by decide⟩

/-- C8 amended: the PATCH precondition checks short-circuit in the
order (1) Upload-Checksum parse when the checksum extension is enabled,
(2) Upload-Offset parse, (3) Content-Type, (4) record lookup,
(5) expiry, (6) offset comparison.  Each conjunct shows one step firing
while every later step's input is left arbitrary: a checksum parse
failure pre-empts everything; after it passes an unparseable offset
yields the not-a-number body; a wrong Content-Type answers 415 whatever
the lookup would say; a missing record answers 404 even when the find
error is non-nil, the record expired or the offset mismatched; an
expired record answers 410 whatever the offset comparison would say;
and only then does a mismatched offset answer 409. -/
theorem c8_precheck_order_amended
    (exts : List Extension) (hashFn : String → List Nat → String)
    (find : String → Api.File × Bool × Option String) (now : Nat) (blob : List Nat)
    (req : PatchRequest) :
    (∀ e, Api.checksumStep exts req.uploadChecksum = Except.error e →
      (Api.resumeUpload exts hashFn find now blob req).w = writeError RW.empty 400 e) ∧
    (∀ ck, Api.checksumStep exts req.uploadChecksum = Except.ok ck →
      parseUint req.uploadOffset = none →
      (Api.resumeUpload exts hashFn find now blob req).w =
        writeError RW.empty 400 "invalid Upload-Offset header: not a number") ∧
    (∀ ck off, Api.checksumStep exts req.uploadChecksum = Except.ok ck →
      parseUint req.uploadOffset = some off →
      req.contentType ≠ "application/offset+octet-stream" →
      (Api.resumeUpload exts hashFn find now blob req).w =
        writeError RW.empty 415 "invalid Content-Type header: expected application/offset+octet-stream") ∧
    (∀ ck off fm ferr, Api.checksumStep exts req.uploadChecksum = Except.ok ck →
      parseUint req.uploadOffset = some off →
      req.contentType = "application/offset+octet-stream" →
      find req.fileID = (fm, false, ferr) →
      (Api.resumeUpload exts hashFn find now blob req).w =
        writeError RW.empty 404 "file not found") ∧
    (∀ ck off fm, Api.checksumStep exts req.uploadChecksum = Except.ok ck →
      parseUint req.uploadOffset = some off →
      req.contentType = "application/offset+octet-stream" →
      find req.fileID = (fm, true, none) →
      enabled exts Extension.expiration = true ∧ fm.expiresAt < now →
      (Api.resumeUpload exts hashFn find now blob req).w =
        writeError RW.empty 410 "file expired") ∧
    (∀ ck off fm, Api.checksumStep exts req.uploadChecksum = Except.ok ck →
      parseUint req.uploadOffset = some off →
      req.contentType = "application/offset+octet-stream" →
      find req.fileID = (fm, true, none) →
      ¬(enabled exts Extension.expiration = true ∧ fm.expiresAt < now) →
      off ≠ fm.uploadedSize →
      (Api.resumeUpload exts hashFn find now blob req).w =
        writeError RW.empty 409 "upload-Offset header does not match the current offset") := by
  refine ⟨?_, ?_, ?_, ?_, ?_, ?_⟩
  · intro e he
    unfold Api.resumeUpload
    rw [he]
  · intro ck hck hoff
    unfold Api.resumeUpload
    rw [hck, hoff]
  · intro ck off hck hoff hct
    unfold Api.resumeUpload
    rw [hck, hoff]
    simp only [if_pos hct]
  · intro ck off fm ferr hck hoff hct hfind
    unfold Api.resumeUpload
    rw [hck, hoff, hct, hfind]
    simp
  · intro ck off fm hck hoff hct hfind hexp
    unfold Api.resumeUpload
    rw [hck, hoff, hct, hfind]
    simp only [ne_eq, not_true_eq_false, Bool.true_eq_false, if_false, ite_false,
      if_pos hexp]
  · intro ck off fm hck hoff hct hfind hexp hne
    unfold Api.resumeUpload
    rw [hck, hoff, hct, hfind]
    simp only [ne_eq, not_true_eq_false, Bool.true_eq_false, if_false, ite_false,
      if_neg hexp, if_pos hne]

/-- Witness for the amended C8: each of the six short-circuit steps
fired at a concrete input whose later-step inputs would fail too. -/
theorem c8_precheck_order_amended_witness :
    (Api.resumeUpload defaultSupportedExtensions (fun _ _ => "")
        (fun _ => (Api.File.zero, false, none)) 0 []
        ⟨"a", "abc", "x", "zzz", ReadOutcome.ok []⟩).w =
      writeError RW.empty 400 "invalid checksum format" ∧
    (Api.resumeUpload [] (fun _ _ => "")
        (fun _ => (Api.File.zero, false, none)) 0 []
        ⟨"a", "abc", "x", "", ReadOutcome.ok []⟩).w =
      writeError RW.empty 400 "invalid Upload-Offset header: not a number" ∧
    (Api.resumeUpload [] (fun _ _ => "")
        (fun _ => (Api.File.zero, false, none)) 0 []
        ⟨"a", "0", "application/json", "", ReadOutcome.ok []⟩).w =
      writeError RW.empty 415 "invalid Content-Type header: expected application/offset+octet-stream" ∧
    (Api.resumeUpload [] (fun _ _ => "")
        (fun _ => (Api.File.zero, false, some "boom")) 9 []
        ⟨"a", "7", "application/offset+octet-stream", "", ReadOutcome.ok []⟩).w =
      writeError RW.empty 404 "file not found" ∧
    (Api.resumeUpload [Extension.expiration] (fun _ _ => "")
        (fun _ => (⟨"a", "", 10, 5, "", "", 3, "/tmp/a"⟩, true, none)) 9 []
        ⟨"a", "0", "application/offset+octet-stream", "", ReadOutcome.ok []⟩).w =
      writeError RW.empty 410 "file expired" ∧
    (Api.resumeUpload [] (fun _ _ => "")
        (fun _ => (⟨"a", "", 9, 0, "", "", 0, "/tmp/a"⟩, true, none)) 0 []
        ⟨"a", "7", "application/offset+octet-stream", "", ReadOutcome.ok []⟩).w =
      writeError RW.empty 409 "upload-Offset header does not match the current offset" :=
  ⟨(c8_precheck_order_amended defaultSupportedExtensions (fun _ _ => "")
      (fun _ => (Api.File.zero, false, none)) 0 []
      ⟨"a", "abc", "x", "zzz", ReadOutcome.ok []⟩).1 "invalid checksum format" rfl,
   (c8_precheck_order_amended [] (fun _ _ => "")
      (fun _ => (Api.File.zero, false, none)) 0 []
      ⟨"a", "abc", "x", "", ReadOutcome.ok []⟩).2.1 ⟨"", ""⟩ rfl (by decide),
   (c8_precheck_order_amended [] (fun _ _ => "")
      (fun _ => (Api.File.zero, false, none)) 0 []
      ⟨"a", "0", "application/json", "", ReadOutcome.ok []⟩).2.2.1
      ⟨"", ""⟩ 0 rfl (by decide) (by decide),
   (c8_precheck_order_amended [] (fun _ _ => "")
      (fun _ => (Api.File.zero, false, some "boom")) 9 []
      ⟨"a", "7", "application/offset+octet-stream", "", ReadOutcome.ok []⟩).2.2.2.1
      ⟨"", ""⟩ 7 Api.File.zero (some "boom") rfl (by decide) rfl rfl,
   (c8_precheck_order_amended [Extension.expiration] (fun _ _ => "")
      (fun _ => (⟨"a", "", 10, 5, "", "", 3, "/tmp/a"⟩, true, none)) 9 []
      ⟨"a", "0", "application/offset+octet-stream", "", ReadOutcome.ok []⟩).2.2.2.2.1
      ⟨"", ""⟩ 0 ⟨"a", "", 10, 5, "", "", 3, "/tmp/a"⟩ rfl (by decide) rfl rfl
      (by decide),
   (c8_precheck_order_amended [] (fun _ _ => "")
      (fun _ => (⟨"a", "", 9, 0, "", "", 0, "/tmp/a"⟩, true, none)) 0 []
      ⟨"a", "7", "application/offset+octet-stream", "", ReadOutcome.ok []⟩).2.2.2.2.2
      ⟨"", ""⟩ 7 ⟨"a", "", 9, 0, "", "", 0, "/tmp/a"⟩ rfl (by decide) rfl rfl
      (by decide) (by decide)⟩

/-- NewFile stamps exactly the expiry instant it is given, whatever the
metadata parse does. -/
lemma Api.NewFile_expiresAt (b64 : String → Option String) (size : Nat)
    (m : String) (e : Nat) (id1 id2 : String) :
    (Api.NewFile b64 size m e id1 id2).expiresAt = e := by
  unfold Api.NewFile
  split <;> rfl

/-- NewFile's record id is the first fresh UUID. -/
lemma Api.NewFile_id (b64 : String → Option String) (size : Nat)
    (m : String) (e : Nat) (id1 id2 : String) :
    (Api.NewFile b64 size m e id1 id2).id = id1 := by
  unfold Api.NewFile
  split <;> rfl

/-- C9: every POST that reaches record creation saves a record whose
expiry is `now + UploadMaxDuration` (never the unset instant), for
every extension configuration; on the non-413 path the response is 201
and always carries Upload-Expires. -/
theorem c9_post_expiry_unconditional
    (exts : List Extension) (maxSize : Nat) (b64 : String → Option String)
    (now : Nat) (id1 id2 : String) (req : Api.PostRequest) (totalSize : Nat)
    (hd : req.uploadDeferLength = "")
    (hl : parseUint req.uploadLength = some totalSize) :
    (∀ p ∈ (Api.createUpload exts maxSize b64 now id1 id2 req).2,
      p.2.expiresAt = now + Api.uploadMaxDuration ∧ p.2.expiresAt ≠ 0) ∧
    (¬(maxSize > 0 ∧ totalSize > maxSize) →
      (Api.createUpload exts maxSize b64 now id1 id2 req).1.status = some 201 ∧
      ("Upload-Expires", Api.uploadExpiresAt (now + Api.uploadMaxDuration)) ∈
        (Api.createUpload exts maxSize b64 now id1 id2 req).1.sentHeaders) := by
  have hez : now + Api.uploadMaxDuration ≠ 0 := by
    simp [Api.uploadMaxDuration]
  unfold Api.createUpload
  rw [hd, hl]
  simp only [ne_eq, not_true_eq_false, false_and, if_false, ite_false,
    String.reduceEq, Api.NewFile_expiresAt, Api.NewFile_id]
  constructor
  · intro p hp
    simp only [List.mem_singleton] at hp
    subst hp
    exact ⟨Api.NewFile_expiresAt b64 totalSize req.uploadMetadata _ id1 id2,
      by rw [Api.NewFile_expiresAt]; exact hez⟩
  · intro hmax
    simp [if_neg hmax, Api.NewFile_expiresAt, hez, RW.write, RW.writeHeader,
      RW.addHeader, RW.empty]

/-- Witness for C9 with no extensions configured and Upload-Length 7. -/
theorem c9_post_expiry_unconditional_witness :
    (∀ p ∈ (Api.createUpload [] 0 (fun _ => none) 5 "i" "j" ⟨"", "7", ""⟩).2,
      p.2.expiresAt = 605 ∧ p.2.expiresAt ≠ 0) ∧
    (Api.createUpload [] 0 (fun _ => none) 5 "i" "j" ⟨"", "7", ""⟩).1.status = some 201 ∧
    ("Upload-Expires", "605") ∈
      (Api.createUpload [] 0 (fun _ => none) 5 "i" "j" ⟨"", "7", ""⟩).1.sentHeaders :=
  have h := c9_post_expiry_unconditional [] 0 (fun _ => none) 5 "i" "j"
    ⟨"", "7", ""⟩ 7 rfl (by decide)
  have h2 := h.2 (by decide)
  ⟨h.1, h2.1, h2.2⟩

/-- C10: the in-memory Store's Find always returns a nil error, so
neither HEAD nor a fully-read PATCH served from it can answer 500: the
handlers' internal-error branch on the lookup is unreachable. -/
theorem c10_inmemory_find_no_500 :
    (∀ (s : Api.StoreState) (id : String), (Api.storeFind s id).2.2 = none) ∧
    (∀ (s : Api.StoreState) (now : Nat) (id : String),
      (Api.getOffset (Api.storeFind s) now id).status ≠ some 500) ∧
    (∀ (s : Api.StoreState) (exts : List Extension)
      (hashFn : String → List Nat → String) (now : Nat) (blob : List Nat)
      (req : PatchRequest) (data : List Nat),
      req.body = ReadOutcome.ok data →
      (Api.resumeUpload exts hashFn (Api.storeFind s) now blob req).w.status ≠ some 500) := by
  refine ⟨?_, ?_, ?_⟩
  · intro s id
    unfold Api.storeFind
    cases List.lookup id s <;> rfl
  · intro s now id
    unfold Api.getOffset Api.storeFind
    cases hl : List.lookup id s with
    | none => simp [RW.write, RW.writeHeader, RW.empty]
    | some f =>
      simp only []
      by_cases hz : f.expiresAt ≠ 0 ∧ f.expiresAt < now
      · simp [if_pos hz, hz.1, hz.2, writeError, RW.write, RW.writeHeader, RW.setHeader,
          RW.addHeader, RW.empty]
      · by_cases hz0 : f.expiresAt = 0
        · simp [if_neg hz, hz0, writeError, RW.write, RW.writeHeader, RW.setHeader,
            RW.addHeader, RW.empty]
        · have hlt : ¬(f.expiresAt < now) := fun hlt => hz ⟨hz0, hlt⟩
          simp [if_neg hz, hz0, hlt, writeError, RW.write, RW.writeHeader, RW.setHeader,
            RW.addHeader, RW.empty]
  · intro s exts hashFn now blob req data hreq
    unfold Api.resumeUpload Api.storeFind
    cases hcs : Api.checksumStep exts req.uploadChecksum with
    | error e =>
      simp [hcs, writeError, RW.write, RW.writeHeader, RW.setHeader, RW.empty]
    | ok ck =>
      cases hpo : parseUint req.uploadOffset with
      | none =>
        simp [hcs, hpo, writeError, RW.write, RW.writeHeader, RW.setHeader, RW.empty]
      | some off =>
        simp only [hcs, hpo]
        by_cases hct : req.contentType ≠ "application/offset+octet-stream"
        · simp [if_pos hct, writeError, RW.write, RW.writeHeader, RW.setHeader, RW.empty]
        · simp only [if_neg hct]
          cases hl : List.lookup req.fileID s with
          | none => simp [writeError, RW.write, RW.writeHeader, RW.setHeader, RW.empty]
          | some f =>
            simp only []
            by_cases hexp : enabled exts Extension.expiration = true ∧ f.expiresAt < now
            · simp [if_pos hexp, writeError, RW.write, RW.writeHeader, RW.setHeader, RW.empty]
            · simp only [if_neg hexp]
              by_cases hoe : off ≠ f.uploadedSize
              · simp [if_pos hoe, writeError, RW.write, RW.writeHeader, RW.setHeader, RW.empty]
              · simp only [if_neg hoe, hreq]
                by_cases hact : enabled exts Extension.checksum = true ∧ ck.algorithm ≠ ""
                · simp only [if_pos hact]
                  by_cases hsup : ck.algorithm ≠ "md5" ∧ ck.algorithm ≠ "sha1"
                  · simp [if_pos hsup, writeError, RW.write, RW.writeHeader, RW.setHeader, RW.empty]
                  · simp only [if_neg hsup]
                    by_cases hmm : hashFn ck.algorithm data ≠ ck.value
                    · simp [if_pos hmm, writeError, RW.write, RW.writeHeader, RW.setHeader, RW.empty]
                    · by_cases hz0 : f.expiresAt = 0 <;>
                        simp [if_neg hmm, hz0, RW.writeHeader, RW.addHeader, RW.empty]
                · by_cases hz0 : f.expiresAt = 0 <;>
                    simp [if_neg hact, hz0, RW.writeHeader, RW.addHeader, RW.empty]

/-- Witness for C10's PATCH part on a concrete empty store. -/
theorem c10_inmemory_find_no_500_witness :
    (Api.resumeUpload [] (fun _ _ => "") (Api.storeFind []) 0 []
      ⟨"a", "0", "application/offset+octet-stream", "", ReadOutcome.ok []⟩).w.status ≠ some 500 :=
  c10_inmemory_find_no_500.2.2 [] [] (fun _ _ => "") 0 []
    ⟨"a", "0", "application/offset+octet-stream", "", ReadOutcome.ok []⟩ [] rfl

end GoHttpUpload
